import Mathlib

/-!
Shallow embedding of `src/WebSokcetHelper.ts` (class `WebSocketHelper`).

The class wraps one WebSocket connection behind an rxjs `Subject`.  We embed
its per-instance mutable fields as the record `HelperState`, and each method
as a state-passing function.  External boundaries are modelled explicitly:

* the JSON decoder (`JSON.parse`) is a parameter `parse : String → Option V`
  (`none` = the parse throws);
* the transport's first event after `new WebSocket(url)` is an
  `OpenOutcome` (`onopen` vs `onerror` during `connect`);
* later transport events are `TransportEvent`s, routed to the inner observer
  exactly as the handler assignments on lines 115-119 of the source route
  them (`onmessage ↦ next`, `onclose ↦ complete`, `onerror ↦ complete`);
* the rxjs `Subject` is modelled by its `completed` flag; a `next` call on a
  live subject is recorded in a delivery log (what subscribers observe), and
  a `next` on a completed subject delivers nothing.

Machine integers do not occur; counters are `Nat`.  Exceptions
(`publisher!` on `null`, `JSON.parse` throwing inside `clearCacheMessages`,
the `throw` in `send`) are explicit Boolean fault flags / `Except`.
-/

namespace WSHelper

/-- The rxjs `Subject<unknown>`: for the properties at stake only its
completed/live status is relevant.  `publisher.complete()` sets the flag;
`next` on a completed subject delivers nothing to subscribers. -/
structure Subject where
  completed : Bool

/-- `WebSocketOptions` from lines 3-8: both fields optional in TS. -/
structure WebSocketOptions where
  autoReconnect : Option Bool
  reconnectLimits : Option Nat

/-- The field initializer on lines 21-24: `{autoReconnect: true, reconnectLimits: 5}`. -/
def defaultOptions : WebSocketOptions :=
  { autoReconnect := some true, reconnectLimits := some 5 }

/-- A value delivered through the publisher: either a successfully decoded
payload or the raw string passed through on decode failure. -/
inductive Msg (V : Type) where
  | decoded (v : V)
  | raw (s : String)

/-- The mutable instance fields of `WebSocketHelper` (lines 10-27).
`listeners` is the length of the `listeners : Subscription[]` array (the code
only reads its `length`, pushes, and clears it); `cacheMessages` is kept in
arrival order, with `Array.prototype.pop` taking from the end. -/
structure HelperState (V : Type) where
  status : Bool
  publisher : Option Subject
  listeners : Nat
  url : String
  options : WebSocketOptions
  cacheMessages : List String

/-- Field initializers of a fresh `WebSocketHelper` instance. -/
def initState (V : Type) : HelperState V :=
  { status := false, publisher := none, listeners := 0, url := "",
    options := defaultOptions, cacheMessages := [] }

/-- First transport event after `new WebSocket(url)`: `onopen` or `onerror`. -/
inductive OpenOutcome where
  | opened
  | errored

/-- The decode step of the inbound handler (lines 123-128):
`try { message = JSON.parse(data) } catch { message = data }`. -/
def decodeOrRaw (parse : String → Option V) (data : String) : Msg V :=
  match parse data with
  | some v => Msg.decoded v
  | none => Msg.raw data

/-- `initPublish` (lines 112-119): replaces the publisher with a fresh live
`Subject`.  The handler wiring it performs (lines 115-118) is embedded as
`wireEvent` below; nothing else in the state is touched (in particular
`listeners` and `cacheMessages` are NOT reset). -/
def initPublish (st : HelperState V) : HelperState V :=
  { st with publisher := some { completed := false } }

/-- `connect` (lines 34-47).  Stores `url`, replaces `options` when an
argument was passed (`options || this.options`), then resolves the promise
from the transport's first event: `onopen` runs `status = true`,
`initPublish()`, `resolve(true)` in that order; `onerror` runs
`resolve(false)`.  Returns the state observable at resolution time together
with the resolved Boolean. -/
def connect (st : HelperState V) (url : String) (options : Option WebSocketOptions)
    (outcome : OpenOutcome) : HelperState V × Bool :=
  let st1 := { st with url := url, options := options.getD st.options }
  match outcome with
  | OpenOutcome.opened => (initPublish { st1 with status := true }, true)
  | OpenOutcome.errored => (st1, false)

/-- The `while (!await this.connect(this.url) && reconnectTime < limits)`
loop of `reconnect` (lines 58-61), counting `connect` calls.  `outcome i` is
the resolution of the i-th `connect` call inside the loop, the first
argument is `limits - reconnectTime`, the second the number of calls already
made.  Each loop-condition evaluation makes one call; on success the
conjunction short-circuits and the loop ends; on failure the loop continues
only while the counter is below `limits`. -/
def reconnectAux (outcome : Nat → Bool) : Nat → Nat → Nat
  | 0, idx => idx + 1
  | r + 1, idx => if outcome idx then idx + 1 else reconnectAux outcome r (idx + 1)

/-- `reconnect` (lines 53-62) as the number of `connect` attempts it makes:
`if (!this.url) return;` guards the empty url (0 attempts), otherwise the
bounded retry loop runs. -/
def reconnect (url : String) (outcome : Nat → Bool) (limits : Nat) : Nat :=
  if url = "" then 0 else reconnectAux outcome limits 0

/-- Argument of `send`: a plain string, or a structured value together with
the result of `JSON.stringify` on it (`none` = stringify throws). -/
inductive OutMessage where
  | plain (s : String)
  | structured (serialized : Option String)

/-- `send` (lines 69-79).  Outside the `readyState === OPEN` guard it is a
silent no-op (`ok none`: nothing handed to the transport); inside, a plain
string is handed over unchanged, a structured value is handed over as its
serialization, and a failing serialization throws `invalid message` before
anything is transmitted. -/
def send (isOpen : Bool) (message : OutMessage) : Except String (Option String) :=
  if isOpen then
    match message with
    | OutMessage.plain s => Except.ok (some s)
    | OutMessage.structured (some j) => Except.ok (some j)
    | OutMessage.structured none => Except.error "invalid message"
  else
    Except.ok none

/-- The drain loop of `clearCacheMessages` (lines 104-108), acting on the
cache REVERSED (top of the pop-stack first).  Returns the remaining stack,
the values handed to `publisher.next` in delivery order, and whether
`JSON.parse` threw.  `while (cacheMessage = this.cacheMessages.pop())`
stops on a falsy popped value: `undefined` when the array is exhausted, but
also the empty string, which is popped yet never delivered.  A non-empty
entry is parsed with a BARE `JSON.parse` (no try/catch), so an unparsable
entry aborts the drain with an exception after being popped. -/
def drainRev (parse : String → Option V) : List String → List String × List V × Bool
  | [] => ([], [], false)
  | m :: rest =>
    if m = "" then (rest, [], false)
    else
      match parse m with
      | none => (rest, [], true)
      | some v =>
        let r := drainRev parse rest
        (r.1, v :: r.2.1, r.2.2)

/-- `clearCacheMessages` (lines 100-109): early return on an empty cache,
otherwise the pop-loop above.  Returns the new state (cache back in arrival
order), the drained values, and the thrown flag. -/
def clearCacheMessages (parse : String → Option V) (st : HelperState V) :
    HelperState V × List V × Bool :=
  if st.cacheMessages.isEmpty then (st, [], false)
  else
    let r := drainRev parse st.cacheMessages.reverse
    ({ st with cacheMessages := r.1.reverse }, r.2.1, r.2.2)

/-- Result of a `subscribe` call: the state afterwards, the messages the
newly registered callback observed during the call, whether the
`this.publisher!` access faulted on `null`, and whether `JSON.parse` threw
out of the drain. -/
structure SubscribeResult (V : Type) where
  state : HelperState V
  delivered : List (Msg V)
  nullFault : Bool
  parseFault : Bool

/-- `subscribe` (lines 93-97).  `this.publisher!.subscribe(callback)` faults
when `publisher` is `null` (nothing mutated).  Otherwise the callback is
registered on the subject first, then `clearCacheMessages()` runs (its
`next` calls reach the callback when the subject is live), and only if the
drain did not throw is the subscription pushed onto `listeners`. -/
def subscribe (parse : String → Option V) (st : HelperState V) : SubscribeResult V :=
  match st.publisher with
  | none => ⟨st, [], true, false⟩
  | some p =>
    let r := clearCacheMessages parse st
    let delivered := if p.completed then [] else r.2.1.map Msg.decoded
    if r.2.2 then ⟨r.1, delivered, false, true⟩
    else ⟨{ r.1 with listeners := r.1.listeners + 1 }, delivered, false, false⟩

/-- A transport event on the open socket. -/
inductive TransportEvent where
  | message (data : String)
  | close
  | error

/-- What the inner observer receives for each event. -/
inductive ObserverCall where
  | next (data : String)
  | complete

/-- The handler wiring performed by `initPublish` (lines 115-118):
`onmessage = observer.next`, `onclose = observer.complete`, and — the load
bearing line 118 — `onerror = observer.complete.bind(observer)` as well, so
a transport error reaches the observer as COMPLETE, not as an error. -/
def wireEvent : TransportEvent → ObserverCall
  | TransportEvent.message d => ObserverCall.next d
  | TransportEvent.close => ObserverCall.complete
  | TransportEvent.error => ObserverCall.complete

/-- The `next` handler of the observable subscription (lines 122-138):
decode opportunistically, then cache the RAW payload when no listener is
registered, else publish the decoded message.  Returns the new state and
the messages delivered to subscribers. -/
def observerNext (parse : String → Option V) (p : Subject) (st : HelperState V)
    (data : String) : HelperState V × List (Msg V) :=
  let message := decodeOrRaw parse data
  if st.listeners = 0 then
    ({ st with cacheMessages := st.cacheMessages ++ [data] }, [])
  else
    (st, if p.completed then [] else [message])

/-- The `error` handler of the observable subscription (lines 139-143):
`autoReconnect && this.reconnect(reconnectLimits)`.  Returns the state and
the list of `reconnect` invocations (each with the limit argument after the
callee default `limits = 5` fills an `undefined`). -/
def observerError (st : HelperState V) : HelperState V × List Nat :=
  match st.options.autoReconnect with
  | some true => (st, [st.options.reconnectLimits.getD 5])
  | _ => (st, [])

/-- The `complete` handler of the observable subscription (lines 144-149):
`status = false`, `publisher.complete()` (the subject stays non-null, only
its flag flips), every listener unsubscribed and the list cleared. -/
def observerComplete (st : HelperState V) : HelperState V :=
  { st with status := false, publisher := some { completed := true }, listeners := 0 }

/-- Outcome of dispatching one transport event. -/
structure EventResult (V : Type) where
  state : HelperState V
  delivered : List (Msg V)
  reconnects : List Nat

/-- Dispatch of one transport event through the wiring of lines 115-119 into
the observer handlers of lines 121-150.  Events are only observed once
`initPublish` has wired them (publisher non-null).  Note that `wireEvent`
never produces an error-path call, so `observerError` — and with it
`reconnect` — is unreachable from transport events. -/
def handleTransportEvent (parse : String → Option V) (st : HelperState V)
    (e : TransportEvent) : EventResult V :=
  match st.publisher with
  | none => ⟨st, [], []⟩
  | some p =>
    match wireEvent e with
    | ObserverCall.next d =>
      let r := observerNext parse p st d
      ⟨r.1, r.2, []⟩
    | ObserverCall.complete => ⟨observerComplete st, [], []⟩

/-- A sequence of inbound message events, collecting deliveries. -/
def runMessages (parse : String → Option V) (st : HelperState V) :
    List String → HelperState V × List (Msg V)
  | [] => (st, [])
  | m :: rest =>
    let r := handleTransportEvent parse st (TransportEvent.message m)
    let r2 := runMessages parse r.state rest
    (r2.1, r.delivered ++ r2.2)

/-- The externally triggerable steps of one `WebSocketHelper` instance. -/
inductive Event where
  | connectEv (url : String) (options : Option WebSocketOptions) (outcome : OpenOutcome)
  | transportEv (e : TransportEvent)
  | subscribeEv

/-- State transition of one event (deliveries and fault flags dropped). -/
def applyEvent (parse : String → Option V) (st : HelperState V) : Event → HelperState V
  | Event.connectEv url options outcome => (connect st url options outcome).1
  | Event.transportEv e => (handleTransportEvent parse st e).state
  | Event.subscribeEv => (subscribe parse st).state

/-- States reachable from a fresh instance by any sequence of events. -/
inductive Reachable (parse : String → Option V) : HelperState V → Prop
  | init : Reachable parse (initState V)
  | step (st : HelperState V) (e : Event) : Reachable parse st →
      Reachable parse (applyEvent parse st e)

/-- A concrete stand-in for the external JSON decoder, used to instantiate
the boundary parameter on concrete runs: decodes the two sample payloads
"12" and "7", fails on everything else (in particular on "hello" and ""). -/
def sampleParse : String → Option Nat := fun s =>
  if s = "12" then some 12 else if s = "7" then some 7 else none

/-- State right after a successful `connect` on a fresh instance. -/
def stOpen : HelperState Nat :=
  (connect (initState Nat) "ws://a" none OpenOutcome.opened).1

/-- Successful `connect` with `{autoReconnect: true, reconnectLimits: 2}`. -/
def stOpen2 : HelperState Nat :=
  (connect (initState Nat) "ws://a"
    (some { autoReconnect := some true, reconnectLimits := some 2 })
    OpenOutcome.opened).1

/-- Connected, then the transport closed: the terminated state. -/
def stTerm : HelperState Nat :=
  applyEvent sampleParse stOpen (Event.transportEv TransportEvent.close)

/-- Connected, then raw "hello" (unparsable) arrived before any subscribe. -/
def stHello : HelperState Nat :=
  (handleTransportEvent sampleParse stOpen (TransportEvent.message "hello")).state

/-- Connected, "hello" cached before any subscribe, then the transport
closed: the terminated state with a stale unparsable payload still buffered
(the complete handler never clears `cacheMessages`). -/
def stTermHello : HelperState Nat :=
  applyEvent sampleParse stHello (Event.transportEv TransportEvent.close)

/-- Connected, then a raw empty-string payload arrived before any subscribe. -/
def stEmptyMsg : HelperState Nat :=
  (handleTransportEvent sampleParse stOpen (TransportEvent.message "")).state

/-- Connected, then payloads "7" and "" arrived before any subscribe. -/
def stC10 : HelperState Nat :=
  (runMessages sampleParse stOpen ["7", ""]).1

/-- Live publisher with the cache holding "5", "", "12" in arrival order. -/
def stMixed : HelperState Nat :=
  { status := true, publisher := some { completed := false }, listeners := 0,
    url := "ws://a", options := defaultOptions, cacheMessages := ["5", "", "12"] }

/-- The buffered-then-live scenario: a fresh instance connects successfully,
receives `msgs` (oldest first) with no subscriber registered, then
`subscribe` runs, then one live payload arrives.  Returns the deliveries
observed while buffering (component 1), the subscribe result (component 2),
and the deliveries of the live payload (component 3). -/
def bufferedThenLive (parse : String → Option V) (url : String)
    (options : Option WebSocketOptions) (msgs : List String) (live : String) :
    List (Msg V) × SubscribeResult V × List (Msg V) :=
  let st0 := (connect (initState V) url options OpenOutcome.opened).1
  let r1 := runMessages parse st0 msgs
  let r2 := subscribe parse r1.1
  let r3 := handleTransportEvent parse r2.state (TransportEvent.message live)
  (r1.2, r2, r3.delivered)

/-- Draining a stack whose entries are all non-empty and all parsable
delivers every entry, top first, and stops only on exhaustion. -/
theorem drainRev_ok (parse : String → Option V) (f : String → V) :
    ∀ stack : List String, (∀ m ∈ stack, m ≠ "" ∧ parse m = some (f m)) →
    drainRev parse stack = ([], stack.map f, false) := by
  intro stack
  induction stack with
  | nil => intro _; rfl
  | cons m rest ih =>
    intro h
    have hm := h m (List.mem_cons_self m rest)
    have hrest := ih (fun x hx => h x (List.mem_cons_of_mem m hx))
    simp [drainRev, hm.1, hm.2, hrest]

/-- Draining a stack holding an empty string below `xs` good entries
delivers exactly those entries, pops the empty string, and stops there. -/
theorem drainRev_stops (parse : String → Option V) (f : String → V) :
    ∀ xs ys : List String, (∀ m ∈ xs, m ≠ "" ∧ parse m = some (f m)) →
    drainRev parse (xs ++ "" :: ys) = (ys, xs.map f, false) := by
  intro xs
  induction xs with
  | nil => intro ys _; simp [drainRev]
  | cons m rest ih =>
    intro ys h
    have hm := h m (List.mem_cons_self m rest)
    have hrest := ih ys (fun x hx => h x (List.mem_cons_of_mem m hx))
    simp [drainRev, hm.1, hm.2, hrest]

/-- `clearCacheMessages` on an all-good cache empties it and yields the
entries in reverse arrival order. -/
theorem clearCacheMessages_ok (parse : String → Option V) (f : String → V)
    (st : HelperState V)
    (h : ∀ m ∈ st.cacheMessages, m ≠ "" ∧ parse m = some (f m)) :
    clearCacheMessages parse st =
      ({ st with cacheMessages := [] }, st.cacheMessages.reverse.map f, false) := by
  obtain ⟨s1, s2, s3, s4, s5, cm⟩ := st
  dsimp only at h ⊢
  cases cm with
  | nil => rfl
  | cons m tl =>
    have h2 : ∀ x ∈ (m :: tl).reverse, x ≠ "" ∧ parse x = some (f x) :=
      fun x hx => h x (List.mem_reverse.mp hx)
    unfold clearCacheMessages
    rw [drainRev_ok parse f ((m :: tl).reverse) h2]
    rfl

/-- `clearCacheMessages` never touches the publisher. -/
theorem clearCacheMessages_publisher (parse : String → Option V)
    (st : HelperState V) : (clearCacheMessages parse st).1.publisher = st.publisher := by
  unfold clearCacheMessages
  split
  case isTrue => rfl
  case isFalse => rfl

/-- `clearCacheMessages` never touches the status flag. -/
theorem clearCacheMessages_status (parse : String → Option V)
    (st : HelperState V) : (clearCacheMessages parse st).1.status = st.status := by
  unfold clearCacheMessages
  split
  case isTrue => rfl
  case isFalse => rfl

/-- `subscribe` leaves the publisher field unchanged in all cases. -/
theorem subscribe_state_publisher (parse : String → Option V)
    (st : HelperState V) : (subscribe parse st).state.publisher = st.publisher := by
  obtain ⟨s1, pub, s3, s4, s5, s6⟩ := st
  cases pub with
  | none => rfl
  | some p =>
    unfold subscribe
    dsimp only
    split
    case isTrue => exact clearCacheMessages_publisher parse _
    case isFalse => exact clearCacheMessages_publisher parse _

/-- `subscribe` leaves the status flag unchanged in all cases. -/
theorem subscribe_state_status (parse : String → Option V)
    (st : HelperState V) : (subscribe parse st).state.status = st.status := by
  obtain ⟨s1, pub, s3, s4, s5, s6⟩ := st
  cases pub with
  | none => rfl
  | some p =>
    unfold subscribe
    dsimp only
    split
    case isTrue => exact clearCacheMessages_status parse _
    case isFalse => exact clearCacheMessages_status parse _

/-- With a non-null publisher, `subscribe` never null-faults. -/
theorem subscribe_nullFault_of_some (parse : String → Option V)
    (st : HelperState V) (p : Subject) (hp : st.publisher = some p) :
    (subscribe parse st).nullFault = false := by
  obtain ⟨s1, pub, s3, s4, s5, s6⟩ := st
  dsimp only at hp
  subst hp
  unfold subscribe
  dsimp only
  split
  case isTrue => rfl
  case isFalse => rfl

/-- While no subscriber is registered, inbound payloads are appended raw to
the cache, in arrival order, and nothing is delivered. -/
theorem runMessages_no_listeners (parse : String → Option V) (p : Subject) :
    ∀ (msgs : List String) (st : HelperState V), st.publisher = some p →
    st.listeners = 0 →
    runMessages parse st msgs =
      ({ st with cacheMessages := st.cacheMessages ++ msgs }, []) := by
  intro msgs
  induction msgs with
  | nil =>
    intro st hp hl
    simp [runMessages]
  | cons m rest ih =>
    intro st hp hl
    have h1 : handleTransportEvent parse st (TransportEvent.message m) =
        ⟨{ st with cacheMessages := st.cacheMessages ++ [m] }, [], []⟩ := by
      simp [handleTransportEvent, hp, wireEvent, observerNext, hl]
    have h2 := ih { st with cacheMessages := st.cacheMessages ++ [m] } hp hl
    simp [runMessages, h1, h2]

/-- `subscribe` on a live publisher and an all-good cache: every cached
payload is delivered decoded in reverse arrival order, the cache empties,
the subscription is recorded, and no fault occurs. -/
theorem subscribe_ok (parse : String → Option V) (f : String → V)
    (st : HelperState V) (hp : st.publisher = some { completed := false })
    (h : ∀ m ∈ st.cacheMessages, m ≠ "" ∧ parse m = some (f m)) :
    subscribe parse st =
      ⟨{ st with cacheMessages := [], listeners := st.listeners + 1 },
        st.cacheMessages.reverse.map (fun m => Msg.decoded (f m)), false, false⟩ := by
  obtain ⟨s1, pub, s3, s4, s5, cm⟩ := st
  dsimp only at hp h ⊢
  subst hp
  unfold subscribe
  dsimp only
  rw [clearCacheMessages_ok parse f _ h]
  simp [List.map_map, Function.comp]

/-- C7: for every prior state, address and config, `connect` resolves to a
Boolean and never raises: the transport opening resolves `true`, an open
failure resolves `false` (the `Promise` executor installs `resolve(true)` on
`onopen` and `resolve(false)` on `onerror`, and never rejects). -/
theorem connect_always_resolves (V : Type) (st : HelperState V) (url : String)
    (options : Option WebSocketOptions) :
    (connect st url options OpenOutcome.opened).2 = true ∧
    (connect st url options OpenOutcome.errored).2 = false :=
  ⟨rfl, rfl⟩

/-- C9: with the transport open, `send` hands a plain string to the
transport unchanged, hands a structured value over as its serialization,
and raises `invalid message` synchronously — transmitting nothing — when
serialization fails. -/
theorem send_encoding_rules (s j : String) :
    send true (OutMessage.plain s) = Except.ok (some s) ∧
    send true (OutMessage.structured (some j)) = Except.ok (some j) ∧
    send true (OutMessage.structured none) = Except.error "invalid message" :=
  ⟨rfl, rfl, rfl⟩

/-- C2: on a connected instance whose stored config has `autoReconnect =
true` (and `reconnectLimits = 2`), a transport error event performs ZERO
`reconnect` invocations and instead runs the teardown path (`status` drops
to `false`), because line 118 binds `ws.onerror` to `observer.complete`;
the subscribed error handler (lines 139-143), which WOULD invoke
`reconnect` with limit 2 on this state, is unreachable dead code. -/
theorem error_event_never_reconnects :
    stOpen2.options.autoReconnect = some true ∧
    (handleTransportEvent sampleParse stOpen2 TransportEvent.error).reconnects = [] ∧
    (handleTransportEvent sampleParse stOpen2 TransportEvent.error).state.status = false ∧
    (observerError stOpen2).2 = [2] :=
  ⟨rfl, rfl, rfl, rfl⟩

/-- C3: with the raw payload "hello" (unparsable) cached before any
subscriber, `subscribe` throws out of the drain (`JSON.parse` on line 107
has no try/catch) and the callback observes nothing — whereas the live
inbound rule `decodeOrRaw` (lines 123-128) would have passed the raw
string "hello" through unchanged. -/
theorem subscribe_throws_on_unparsable_cached_message :
    stHello.cacheMessages = ["hello"] ∧
    (subscribe sampleParse stHello).parseFault = true ∧
    (subscribe sampleParse stHello).delivered = [] ∧
    decodeOrRaw sampleParse "hello" = Msg.raw "hello" :=
  ⟨rfl, rfl, rfl, rfl⟩

/-- C1 counterexample: a buffered empty-string payload is NOT delivered by
`subscribe` — the buffer held one payload and the drain delivered none of
it (the pop-loop condition is falsy on ""), refuting delivery of EVERY
buffered payload for every payload sequence. -/
theorem subscribe_drops_buffered_empty_payload :
    stEmptyMsg.cacheMessages = [""] ∧
    (subscribe sampleParse stEmptyMsg).delivered = [] ∧
    (subscribe sampleParse stEmptyMsg).parseFault = false :=
  ⟨rfl, rfl, rfl⟩

/-- C5 counterexample: the state reached by a successful `connect` followed
by a transport close is reachable, has `status = false`, yet its
`publisher` is still the (completed) subject, not null — the complete
handler (lines 144-149) never nulls the field. -/
theorem terminated_state_keeps_publisher :
    Reachable sampleParse stTerm ∧ stTerm.status = false ∧
    stTerm.publisher = some { completed := true } := by
  refine ⟨?_, rfl, rfl⟩
  have h1 : Reachable sampleParse (initState Nat) := Reachable.init
  have h2 := Reachable.step (initState Nat)
    (Event.connectEv "ws://a" none OpenOutcome.opened) h1
  exact Reachable.step stOpen (Event.transportEv TransportEvent.close) h2

/-- C6 counterexample: after termination the publisher is non-null (merely
completed), so `subscribe` raises no error at all — neither a null-access
fault nor a drain exception — contradicting "an error condition raised to
the caller" for the terminated case. -/
theorem subscribe_after_termination_raises_nothing :
    stTerm.publisher = some { completed := true } ∧
    (subscribe sampleParse stTerm).nullFault = false ∧
    (subscribe sampleParse stTerm).parseFault = false ∧
    (subscribe sampleParse stTerm).delivered = [] :=
  ⟨rfl, rfl, rfl, rfl⟩

/-- C10 counterexample: with payloads "7" then "" buffered, draining at
subscribe time delivers nothing and leaves the buffer as ["7"]: the empty
string is popped and silently discarded, NOT retained in the buffer as the
claim states. -/
theorem drain_pops_empty_string :
    stC10.cacheMessages = ["7", ""] ∧
    (subscribe sampleParse stC10).state.cacheMessages = ["7"] ∧
    (subscribe sampleParse stC10).delivered = [] :=
  ⟨rfl, rfl, rfl⟩

/-- When every attempt fails, the retry loop makes one call per remaining
credit plus the final bound-checking call. -/
theorem reconnectAux_all_fail (outcome : Nat → Bool) (h : ∀ i, outcome i = false) :
    ∀ r idx, reconnectAux outcome r idx = idx + r + 1 := by
  intro r
  induction r with
  | zero => intro idx; rfl
  | succ n ih =>
    intro idx
    have hstep : reconnectAux outcome (n + 1) idx = reconnectAux outcome n (idx + 1) := by
      show (if outcome idx = true then idx + 1 else reconnectAux outcome n (idx + 1)) =
        reconnectAux outcome n (idx + 1)
      rw [if_neg (by simp [h idx])]
    rw [hstep, ih (idx + 1)]
    omega

/-- The retry loop never makes more calls than its credit plus one. -/
theorem reconnectAux_le (outcome : Nat → Bool) :
    ∀ r idx, reconnectAux outcome r idx ≤ idx + r + 1 := by
  intro r
  induction r with
  | zero => intro idx; simp [reconnectAux]
  | succ n ih =>
    intro idx
    unfold reconnectAux
    by_cases hb : outcome idx = true
    · rw [if_pos hb]; omega
    · rw [if_neg hb]
      have := ih (idx + 1)
      omega

/-- The retry loop stops right after its first successful call. -/
theorem reconnectAux_first_true (outcome : Nat → Bool) :
    ∀ k r idx : Nat, k ≤ r → (∀ i, i < k → outcome (idx + i) = false) →
    outcome (idx + k) = true → reconnectAux outcome r idx = idx + k + 1 := by
  intro k
  induction k with
  | zero =>
    intro r idx _ _ ht
    cases r with
    | zero => rfl
    | succ n =>
      have ht0 : outcome idx = true := ht
      show (if outcome idx = true then idx + 1 else reconnectAux outcome n (idx + 1)) =
        idx + 0 + 1
      rw [if_pos ht0]
  | succ n ih =>
    intro r idx hle hbefore ht
    cases r with
    | zero => exact absurd hle (by omega)
    | succ s =>
      have h0 : outcome idx = false := by
        have := hbefore 0 (Nat.succ_pos n)
        simpa using this
      have h2 : ∀ i, i < n → outcome (idx + 1 + i) = false := by
        intro i hi
        have hh := hbefore (i + 1) (by omega)
        have heq : idx + (i + 1) = idx + 1 + i := by omega
        rwa [heq] at hh
      have ht2 : outcome (idx + 1 + n) = true := by
        have heq : idx + (n + 1) = idx + 1 + n := by omega
        rwa [heq] at ht
      unfold reconnectAux
      rw [if_neg (by simp [h0])]
      rw [ih s (idx + 1) (by omega) h2 ht2]
      omega

/-- C4: with a stored address, the reconnection controller makes exactly
`limits` additional `connect` attempts after the initial attempt fails when
every attempt fails (total `1 + limits` calls, then no more), never makes
more than `limits` retries beyond the initial attempt, and stops as soon as
an attempt resolves `true` (a first success at attempt `k` ends the loop
after `k + 1` calls). -/
theorem reconnect_attempt_bound (url : String) (outcome : Nat → Bool) (limits : Nat)
    (hurl : url ≠ "") :
    ((∀ i, outcome i = false) → reconnect url outcome limits = 1 + limits) ∧
    reconnect url outcome limits ≤ 1 + limits ∧
    (∀ k, k ≤ limits → (∀ i, i < k → outcome i = false) → outcome k = true →
      reconnect url outcome limits = k + 1) := by
  have hr : reconnect url outcome limits = reconnectAux outcome limits 0 := by
    unfold reconnect
    rw [if_neg hurl]
  refine ⟨?_, ?_, ?_⟩
  · intro hall
    rw [hr, reconnectAux_all_fail outcome hall limits 0]
    omega
  · rw [hr]
    have := reconnectAux_le outcome limits 0
    omega
  · intro k hk hbefore ht
    have h2 : ∀ i, i < k → outcome (0 + i) = false := by
      intro i hi
      simpa using hbefore i hi
    have ht2 : outcome (0 + k) = true := by simpa using ht
    rw [hr, reconnectAux_first_true outcome k limits 0 hk h2 ht2]
    omega

/-- C4 witness: with `reconnectLimits = 2` and an always-failing transport,
exactly three `connect` calls happen (initial + 2 retries); with success on
the second call, exactly two calls happen. -/
theorem reconnect_attempt_bound_witness :
    reconnect "ws://a" (fun _ => false) 2 = 1 + 2 ∧
    reconnect "ws://a" (fun i => decide (1 ≤ i)) 2 = 1 + 1 := by
  constructor
  · exact (reconnect_attempt_bound "ws://a" (fun _ => false) 2 (by decide)).1
      (fun _ => rfl)
  · exact (reconnect_attempt_bound "ws://a" (fun i => decide (1 ≤ i)) 2 (by decide)).2.2
      1 (by decide) (by decide) (by decide)

/-- C1 amended: for every sequence of buffered payloads that are non-empty
and individually parsable, `subscribe` delivers every one of them, each
parsed independently at drain time, in reverse arrival order, with no fault,
before a subsequently-arriving live payload is delivered. -/
theorem subscribe_drains_buffer_in_reverse (V : Type) (parse : String → Option V)
    (f : String → V) (url : String) (options : Option WebSocketOptions)
    (msgs : List String) (live : String)
    (h : ∀ m ∈ msgs, m ≠ "" ∧ parse m = some (f m)) :
    (bufferedThenLive parse url options msgs live).1 = [] ∧
    (bufferedThenLive parse url options msgs live).2.1.delivered =
      msgs.reverse.map (fun m => Msg.decoded (f m)) ∧
    (bufferedThenLive parse url options msgs live).2.1.nullFault = false ∧
    (bufferedThenLive parse url options msgs live).2.1.parseFault = false ∧
    (bufferedThenLive parse url options msgs live).2.2 = [decodeOrRaw parse live] := by
  have h1 := runMessages_no_listeners parse { completed := false } msgs
      ((connect (initState V) url options OpenOutcome.opened).1) rfl rfl
  have h2 := subscribe_ok parse f
      { (connect (initState V) url options OpenOutcome.opened).1 with
        cacheMessages :=
          ((connect (initState V) url options OpenOutcome.opened).1).cacheMessages
            ++ msgs } rfl h
  simp only [bufferedThenLive, h1]
  rw [h2]
  refine ⟨trivial, ?_, rfl, rfl, ?_⟩
  · simp [connect, initState, initPublish]
  · simp [handleTransportEvent, wireEvent, observerNext, connect, initState, initPublish]

/-- C1 amended witness: payloads "7" then "12" buffered, then subscribe,
then live "hello": the callback observes decoded 12 then decoded 7, and
afterwards the raw live payload. -/
theorem subscribe_drains_buffer_in_reverse_witness :
    (bufferedThenLive sampleParse "ws://a" none ["7", "12"] "hello").2.1.delivered =
      [Msg.decoded 12, Msg.decoded 7] ∧
    (bufferedThenLive sampleParse "ws://a" none ["7", "12"] "hello").2.2 =
      [Msg.raw "hello"] := by
  have h := subscribe_drains_buffer_in_reverse Nat sampleParse
      (fun m => if m = "7" then 7 else 12) "ws://a" none ["7", "12"] "hello" (by decide)
  constructor
  · exact h.2.1.trans rfl
  · exact h.2.2.2.2.trans rfl

/-- C5 amended: in every reachable state, `publisher` is non-null whenever
`status` is true.  (The converse direction of the claim fails: after
termination `status` is false while `publisher` stays a completed subject.) -/
theorem status_true_implies_publisher (V : Type) (parse : String → Option V)
    (st : HelperState V) (h : Reachable parse st) :
    st.status = true → st.publisher.isSome = true := by
  induction h with
  | init =>
    intro hs
    exact absurd hs (by simp [initState])
  | step st2 e hst ih =>
    intro hs
    cases e with
    | connectEv url options outcome =>
      cases outcome with
      | opened => rfl
      | errored => exact ih hs
    | transportEv te =>
      cases hp : st2.publisher with
      | none =>
        have he : applyEvent parse st2 (Event.transportEv te) = st2 := by
          simp [applyEvent, handleTransportEvent, hp]
        rw [he] at hs ⊢
        exact ih hs
      | some p =>
        cases te with
        | message d =>
          have he : applyEvent parse st2 (Event.transportEv (TransportEvent.message d)) =
              (observerNext parse p st2 d).1 := by
            simp [applyEvent, handleTransportEvent, hp, wireEvent]
          have hpub : (observerNext parse p st2 d).1.publisher = st2.publisher := by
            unfold observerNext
            dsimp only
            split
            case isTrue => rfl
            case isFalse => rfl
          have hstat : (observerNext parse p st2 d).1.status = st2.status := by
            unfold observerNext
            dsimp only
            split
            case isTrue => rfl
            case isFalse => rfl
          rw [he] at hs ⊢
          rw [hpub]
          exact ih (hstat ▸ hs)
        | close =>
          have he : applyEvent parse st2 (Event.transportEv TransportEvent.close) =
              observerComplete st2 := by
            simp [applyEvent, handleTransportEvent, hp, wireEvent]
          rw [he]
          rfl
        | error =>
          have he : applyEvent parse st2 (Event.transportEv TransportEvent.error) =
              observerComplete st2 := by
            simp [applyEvent, handleTransportEvent, hp, wireEvent]
          rw [he]
          rfl
    | subscribeEv =>
      have hpub := subscribe_state_publisher parse st2
      have hstat := subscribe_state_status parse st2
      show (subscribe parse st2).state.publisher.isSome = true
      rw [hpub]
      exact ih (hstat ▸ hs)

/-- C5 amended witness: the freshly connected state is reachable, its status
is true, and its publisher is non-null. -/
theorem status_true_implies_publisher_witness : stOpen.publisher.isSome = true := by
  have hr : Reachable sampleParse stOpen :=
    Reachable.step (initState Nat)
      (Event.connectEv "ws://a" none OpenOutcome.opened) Reachable.init
  exact status_true_implies_publisher Nat sampleParse stOpen hr rfl

/-- C6 amended: `subscribe` before any successful connect hits the null
publisher and faults to the caller with nothing mutated (an unguarded null
access, not a curated "not connected" error); `subscribe` after termination
finds a non-null but completed publisher, so no null or "not connected"
error is raised — the only error it can raise there is the drain's bare
`JSON.parse` throwing on a stale buffered payload that survived termination
(`parseFault` equals the throw flag of the pop-loop over the surviving
cache) — and the callback is registered against that completed (non-live)
publisher, which delivers it nothing. -/
theorem subscribe_without_live_publisher (V : Type) (parse : String → Option V)
    (st : HelperState V) :
    (st.publisher = none →
      (subscribe parse st).nullFault = true ∧ (subscribe parse st).state = st) ∧
    (∀ p : Subject, st.publisher = some p → p.completed = true →
      (subscribe parse st).nullFault = false ∧
      (subscribe parse st).delivered = [] ∧
      (subscribe parse st).parseFault = (drainRev parse st.cacheMessages.reverse).2.2) := by
  obtain ⟨s1, pub, s3, s4, s5, s6⟩ := st
  constructor
  · intro hp
    dsimp only at hp
    subst hp
    exact ⟨rfl, rfl⟩
  · intro p hp hc
    dsimp only at hp
    subst hp
    have hcf : (clearCacheMessages parse ⟨s1, some p, s3, s4, s5, s6⟩).2.2 =
        (drainRev parse s6.reverse).2.2 := by
      unfold clearCacheMessages
      dsimp only
      split
      case isTrue h =>
        have h6 : s6 = [] := by
          cases s6 with
          | nil => rfl
          | cons a l => simp at h
        subst h6
        rfl
      case isFalse h => rfl
    refine ⟨?_, ?_, ?_⟩
    · unfold subscribe
      dsimp only
      split
      case isTrue => rfl
      case isFalse => rfl
    · unfold subscribe
      dsimp only
      rw [hc]
      split
      case isTrue => rfl
      case isFalse => rfl
    · unfold subscribe
      dsimp only
      rw [← hcf]
      split
      case isTrue h => exact h.symm
      case isFalse h =>
        cases hb : (clearCacheMessages parse ⟨s1, some p, s3, s4, s5, s6⟩).2.2 with
        | true => exact absurd hb h
        | false => rfl

/-- C6 amended witness: on a fresh instance `subscribe` null-faults; on the
terminated state with stale unparsable "hello" still buffered, it raises no
null fault, delivers nothing to the callback, and the only error raised is
the drain's parse throw. -/
theorem subscribe_without_live_publisher_witness :
    (subscribe sampleParse (initState Nat)).nullFault = true ∧
    (subscribe sampleParse stTermHello).nullFault = false ∧
    (subscribe sampleParse stTermHello).delivered = [] ∧
    (subscribe sampleParse stTermHello).parseFault = true := by
  refine ⟨((subscribe_without_live_publisher Nat sampleParse (initState Nat)).1 rfl).1,
    ?_, ?_, ?_⟩
  · exact ((subscribe_without_live_publisher Nat sampleParse stTermHello).2
      { completed := true } rfl rfl).1
  · exact ((subscribe_without_live_publisher Nat sampleParse stTermHello).2
      { completed := true } rfl rfl).2.1
  · exact (((subscribe_without_live_publisher Nat sampleParse stTermHello).2
      { completed := true } rfl rfl).2.2).trans rfl

/-- C8: when `connect` resolves `true`, the relay is already initialized in
the state observable at resolution time — the publisher is the fresh live
subject — so an immediately following `subscribe` never hits a null
publisher (`initPublish()` runs before `resolve(true)` on lines 40-44). -/
theorem publisher_ready_before_resolution (V : Type) (parse : String → Option V)
    (st : HelperState V) (url : String) (options : Option WebSocketOptions) :
    (connect st url options OpenOutcome.opened).1.publisher =
      some { completed := false } ∧
    (subscribe parse (connect st url options OpenOutcome.opened).1).nullFault = false :=
  ⟨rfl, subscribe_nullFault_of_some parse _ { completed := false } rfl⟩

/-- C10 amended: with the buffer holding `before ++ [""] ++ after`, where
every payload buffered after the empty string is non-empty and parsable,
draining at subscribe time stops at the empty string: the entries after it
are delivered in reverse arrival order, the empty string itself is popped
and silently dropped — neither delivered nor retained — and every payload
buffered before it remains in the buffer undelivered.  (The restriction on
the later entries is forced by the drain itself: an empty later entry stops
the loop there first, and an unparsable later entry aborts it with a parse
throw, both shown elsewhere in this file.) -/
theorem drain_stops_at_empty_payload (V : Type) (parse : String → Option V)
    (f : String → V) (st : HelperState V) (before after : List String)
    (hp : st.publisher = some { completed := false })
    (hcache : st.cacheMessages = before ++ "" :: after)
    (h : ∀ m ∈ after, m ≠ "" ∧ parse m = some (f m)) :
    (subscribe parse st).delivered = after.reverse.map (fun m => Msg.decoded (f m)) ∧
    (subscribe parse st).state.cacheMessages = before ∧
    (subscribe parse st).nullFault = false ∧
    (subscribe parse st).parseFault = false := by
  obtain ⟨s1, pub, s3, s4, s5, cm⟩ := st
  dsimp only at hp hcache h ⊢
  subst hp
  subst hcache
  have h2 : ∀ x ∈ after.reverse, x ≠ "" ∧ parse x = some (f x) :=
    fun x hx => h x (List.mem_reverse.mp hx)
  have hrev : (before ++ "" :: after).reverse = after.reverse ++ "" :: before.reverse := by
    simp
  have hne : (before ++ "" :: after).isEmpty = false := by
    cases before with
    | nil => rfl
    | cons b bs => rfl
  have hclear : clearCacheMessages parse
      ⟨s1, some { completed := false }, s3, s4, s5, before ++ "" :: after⟩ =
      (⟨s1, some { completed := false }, s3, s4, s5, before⟩,
        after.reverse.map f, false) := by
    unfold clearCacheMessages
    dsimp only
    rw [hne, hrev, drainRev_stops parse f after.reverse before.reverse h2]
    simp
  unfold subscribe
  dsimp only
  rw [hclear]
  refine ⟨?_, rfl, rfl, rfl⟩
  simp [List.map_map, Function.comp]

/-- C10 amended witness: buffer "5", "", "12" → subscribe delivers only
decoded 12 and leaves "5" in the buffer; the empty string is gone. -/
theorem drain_stops_at_empty_payload_witness :
    (subscribe sampleParse stMixed).delivered = [Msg.decoded 12] ∧
    (subscribe sampleParse stMixed).state.cacheMessages = ["5"] := by
  have h := drain_stops_at_empty_payload Nat sampleParse (fun _ => 12) stMixed
      ["5"] ["12"] rfl rfl (by decide)
  constructor
  · exact h.1.trans rfl
  · exact h.2.1

end WSHelper
